import Mathlib

/-!
Verification development for the ranky editing-activity telemetry extension.

Shallow embedding of the parts of the code the claims speak about:
  * `Timer` — the stopwatch class of `Timer.ts` (`src/unnamed/part_000`);
    wall-clock reads (`Date.now()`) become an explicit `now : ℤ` argument
    (milliseconds), and the floating-point `Math.round` of
    `getElapsedSeconds`/`getElapsedMinutes` is modelled exactly over ℚ.
  * the metrics-aggregation loop over `e.contentChanges` in
    `handleUserCoding` (`src/src/extension.ts`);
  * the session-close / delivery logic of `endSession` and `deactivate`
    (`src/src/extension.ts`), with the module-level globals
    (`dailyStats.totalTimeMinutes`, `statsAlreadySent`, `rankyUser`, `timer`)
    gathered into an explicit state record, and each issued
    `sendCodingStatsToBackend` call recorded in a `sends` trace;
  * the inactivity-watchdog timer management of `handleUserCoding` and
    `endSession`, with the host's timer table made explicit;
  * the authentication flow `processTokenFromWebView` /
    `clearAuthenticationData` / `createUserAccountFromExtensionSide`, with
    the vault (`context.secrets`) as an explicit pair of optional entries and
    the outcomes of the external calls (JWT parse, backend verification,
    account creation) passed as parameters;
  * `sendCodingStatsToBackend` itself, instrumented with counters for the
    number of HTTP requests issued and re-authentication attempts made.
-/

/-- The `Timer` class of `Timer.ts`: `startTime`/`endTime` are epoch
milliseconds or `null`, `pausedTime` a millisecond duration. -/
structure Timer where
  startTime : Option ℤ
  endTime : Option ℤ
  running : Bool
  pausedTime : ℤ
deriving DecidableEq, Repr

/-- Field initializers of the `Timer` class. -/
def Timer.init : Timer := ⟨none, none, false, 0⟩

/-- `start()`: if not running, sets `startTime = Date.now() - pausedTime`,
clears `endTime`, marks running. `pausedTime` itself is left unchanged. -/
def Timer.start (now : ℤ) (t : Timer) : Timer :=
  if t.running then t
  else { t with startTime := some (now - t.pausedTime), endTime := none, running := true }

/-- `stop()`: if running with a non-null `startTime`, sets `endTime = now`,
clears `running`, and resets `pausedTime` to 0. -/
def Timer.stop (now : ℤ) (t : Timer) : Timer :=
  if t.running = true ∧ t.startTime ≠ none then
    { t with endTime := some now, running := false, pausedTime := 0 }
  else t

/-- `pause()`: if running with a non-null `startTime`, captures
`pausedTime = now - startTime` and clears `running`. -/
def Timer.pause (now : ℤ) (t : Timer) : Timer :=
  match t.startTime, t.running with
  | some st, true => { t with pausedTime := now - st, running := false }
  | _, _ => t

/-- `resume()`: if not running and `pausedTime > 0`, re-invokes `start()`. -/
def Timer.resume (now : ℤ) (t : Timer) : Timer :=
  if t.running = false ∧ 0 < t.pausedTime then Timer.start now t else t

/-- `reset()`: clears every field back to its initial value. -/
def Timer.reset (_t : Timer) : Timer := ⟨none, none, false, 0⟩

/-- `isRunning()`. -/
def Timer.isRunning (t : Timer) : Bool := t.running

/-- `getElapsedTime()`: `0` when never started; `now - startTime` while
running; `endTime - startTime` when stopped with an end time; otherwise the
accumulated `pausedTime`. -/
def Timer.getElapsedTime (now : ℤ) (t : Timer) : ℤ :=
  match t.startTime with
  | none => 0
  | some st =>
    if t.running then now - st
    else
      match t.endTime with
      | some en => en - st
      | none => t.pausedTime

/-! `getElapsedSeconds()` is
`Math.round((getElapsedTime() / 1000) * 100) / 100` — a multiple of `1/100`
of a second, and every quantity derived from it stays a multiple of `1/100`
of its unit.  We therefore carry these values scaled by 100 (hundredths of
the unit) as exact integers: `Math.round(x)` is `⌊x + 1/2⌋`, and for an
integer `e`, `⌊e/10 + 1/2⌋ = (e + 5) / 10` with floor division, which is
Lean's `/` on ℤ at a positive divisor. -/

/-- `getElapsedSeconds()`, scaled by 100 (hundredths of a second):
`Math.round((getElapsedTime() / 1000) * 100)` = `⌊ms/10 + 1/2⌋`. -/
def Timer.getElapsedSeconds (now : ℤ) (t : Timer) : ℤ :=
  (t.getElapsedTime now + 5) / 10

/-- `getElapsedMinutes()`, scaled by 100 (hundredths of a minute):
`Math.round((getElapsedSeconds() / 60) * 100)` = `⌊cs/60 + 1/2⌋` where `cs`
is `getElapsedSeconds()` in hundredths of a second. -/
def Timer.getElapsedMinutes (now : ℤ) (t : Timer) : ℤ :=
  (t.getElapsedSeconds now + 30) / 60

/-! ## Metrics aggregation (`handleUserCoding`, content-change loop)

One element of `e.contentChanges`: `text` is the inserted text (as a list of
characters), `rangeLength` the length of the replaced range. -/

/-- One entry of `e.contentChanges` in `handleUserCoding`. -/
structure ContentChange where
  text : List Char
  rangeLength : Nat
deriving DecidableEq, Repr

/-- The JavaScript `\s` class, restricted to the whitespace characters that
occur in editor text: space, newline, tab, carriage return, vertical tab and
form feed.  `trim` and `split` below use the same predicate, as in JS. -/
def isJsWs (c : Char) : Bool :=
  c = ' ' || c = '\n' || c = '\t' || c = '\r' || c = '\x0b' || c = '\x0c'

/-- JavaScript `String.prototype.trim`: strip whitespace from both ends. -/
def jsTrim (s : List Char) : List Char :=
  ((s.dropWhile isJsWs).reverse.dropWhile isJsWs).reverse

/-- JavaScript `s.split(/\s+/)`: split at maximal whitespace runs; a leading
(resp. trailing) whitespace run yields a leading (resp. trailing) empty
piece, exactly as in JS. -/
def splitWs : List Char → List Char → List (List Char)
  | [], acc => [acc.reverse]
  | c :: rest, acc =>
    if isJsWs c then acc.reverse :: splitWs (rest.dropWhile isJsWs) []
    else splitWs rest (c :: acc)
termination_by s _ => s.length
decreasing_by
  · exact Nat.lt_succ_of_le (List.dropWhile_sublist _).length_le
  · exact Nat.lt_succ_self _

/-- `change.text.trim().split(/\s+/).filter((w) => w.length > 0).length`
from the word-counting branch of `handleUserCoding`. -/
def wordCount (s : List Char) : Nat :=
  ((splitWs (jsTrim s) []).filter (fun w => 0 < w.length)).length

/-- `(change.text.match(/\n/g) || []).length`: the number of newline
characters of the inserted text. -/
def countNewlines (s : List Char) : Nat := s.countP (fun c => c = '\n')

/-- The `totalWords` / `totalLines` fields of the module-level `dailyStats`
record (the two fields the content-change loop mutates). -/
structure AggStats where
  totalWords : Nat
  totalLines : Nat
deriving DecidableEq, Repr

/-- The body of `e.contentChanges.forEach((change) => ...)` in
`handleUserCoding`: adds the inserted text's newline count to `totalLines`;
then, for a pure insertion (`rangeLength === 0`, non-empty text) whose text
is non-blank after trimming and contains no newline, adds the
whitespace-token count to `totalWords`. -/
def applyChange (s : AggStats) (c : ContentChange) : AggStats :=
  let newLines := countNewlines c.text
  let s1 := if 0 < newLines then { s with totalLines := s.totalLines + newLines } else s
  if 0 < c.text.length ∧ c.rangeLength = 0 then
    if 0 < (jsTrim c.text).length ∧ ¬ ('\n' ∈ c.text) then
      { s1 with totalWords := s1.totalWords + wordCount c.text }
    else s1
  else s1

/-- The whole content-change loop: fold `applyChange` over the event's list
of content changes. -/
def applyChanges (s : AggStats) (cs : List ContentChange) : AggStats :=
  cs.foldl applyChange s

/-! ## Session close and delivery (`endSession`, `deactivate`)

The module-level globals of `extension.ts` that the two close paths read and
write, gathered into one record.  Each call to `sendCodingStatsToBackend`
issued by a close path is appended to the `sends` trace, carrying the
payload fields the claims constrain (`totalTimeMinutes` and
`sessionEndReason`); delivery is fire-and-forget in the source, so the
response never flows back into this state. -/

/-- `sessionEndReason` of `CodingStatsPayload`. -/
inductive EndReason where
  | inactivity
  | vscodeClose
deriving DecidableEq, Repr

/-- The delivered payload, projected to the fields the claims constrain.
`totalTimeMinutes` is the number the code writes into the payload field of
that name, scaled by 100 like every time value of this embedding. -/
structure StatsPayload where
  totalTimeMinutes : ℤ
  reason : EndReason
deriving DecidableEq, Repr

/-- Module-level state of `extension.ts` relevant to session close:
the `timer` singleton, `dailyStats.totalTimeMinutes`, the
`statsAlreadySent` flag, whether `rankyUser` is non-null, and the trace of
issued `sendCodingStatsToBackend` calls. -/
structure SessionState where
  timer : Timer
  totalTimeMinutes : ℤ
  statsAlreadySent : Bool
  hasUser : Bool
  sends : List StatsPayload
deriving DecidableEq, Repr

/-- `endSession()`: when the timer is running, add
`timer.getElapsedSeconds()` into `dailyStats.totalTimeMinutes`, stop the
timer, and — only if a user is present, the accumulated total is positive
and `statsAlreadySent` is still false — set `statsAlreadySent = true` and
issue the delivery call with `sessionEndReason: "inactivity"`.  The flag is
assigned before the call is started, in one and the same synchronous block.
(The trailing `clearTimeout(inactivityTimeout)` is modelled in the
watchdog state machine below.) -/
def endSession (now : ℤ) (s : SessionState) : SessionState :=
  if s.timer.running then
    let sessionTime := s.timer.getElapsedSeconds now
    let total := s.totalTimeMinutes + sessionTime
    let s1 : SessionState := { s with totalTimeMinutes := total, timer := s.timer.stop now }
    if s1.hasUser = true ∧ 0 < total ∧ s1.statsAlreadySent = false then
      { s1 with statsAlreadySent := true,
                sends := s1.sends ++ [⟨total, EndReason.inactivity⟩] }
    else s1
  else s

/-- The final guarded block of `deactivate()`: only if a user is present,
`dailyStats.totalTimeMinutes > 0` and `statsAlreadySent` is still false,
set `statsAlreadySent = true` and issue the delivery call with
`sessionEndReason: "vscode_close"`. -/
def shutdownFlush (s : SessionState) : SessionState :=
  if s.hasUser = true ∧ 0 < s.totalTimeMinutes ∧ s.statsAlreadySent = false then
    { s with statsAlreadySent := true,
             sends := s.sends ++ [⟨s.totalTimeMinutes, EndReason.vscodeClose⟩] }
  else s

/-- `deactivate()`: run `endSession()` if the timer is running; then the
guarded `vscode_close` delivery block; finally clear `rankyUser`. -/
def deactivate (now : ℤ) (s : SessionState) : SessionState :=
  let s1 := if s.timer.running then endSession now s else s
  let s2 := shutdownFlush s1
  { s2 with hasUser := false }

/-- A session-close event of one process run: either the inactivity timer
fires (which calls `endSession`) or the host shuts the extension down
(which calls `deactivate`), each at some wall-clock instant. -/
inductive CloseEvent where
  | inact (now : ℤ)
  | shutdown (now : ℤ)
deriving DecidableEq, Repr

/-- Apply one close event to the session state. -/
def closeStep (s : SessionState) (e : CloseEvent) : SessionState :=
  match e with
  | CloseEvent.inact now => endSession now s
  | CloseEvent.shutdown now => deactivate now s

/-- Run a sequence of close events. -/
def runClose (s : SessionState) (es : List CloseEvent) : SessionState :=
  es.foldl closeStep s

/-- Invariant tying the `statsAlreadySent` flag to the send trace: while the
flag is unset nothing has been sent, and never more than one send occurs. -/
def SendInv (s : SessionState) : Prop :=
  (s.statsAlreadySent = false → s.sends = []) ∧ s.sends.length ≤ 1

/-! ## Inactivity watchdog (timer management of `handleUserCoding` / `endSession`)

The host's single-shot timer table is made explicit: `live` is the list of
scheduled, not-yet-fired, not-yet-cancelled timeouts (by identifier),
`handle` is the module variable `inactivityTimeout`, `nextId` the next fresh
identifier, and `autoCloses` counts the `endSession()` invocations made by a
firing timer's callback. -/

/-- Watchdog-relevant state: host timer table plus the `inactivityTimeout`
module variable. -/
structure WatchState where
  live : List Nat
  handle : Option Nat
  nextId : Nat
  autoCloses : Nat
deriving DecidableEq, Repr

/-- State at activation: no timer scheduled. -/
def WatchState.init : WatchState := ⟨[], none, 0, 0⟩

/-- `if (inactivityTimeout) { clearTimeout(inactivityTimeout); }`: cancel the
referenced timeout (a no-op on an already-fired one). -/
def cancelPending (s : WatchState) : WatchState :=
  match s.handle with
  | some h => { s with live := s.live.erase h }
  | none => s

/-- Timer management of `handleUserCoding` on a qualifying edit event (an
event with a non-empty `contentChanges` reaching the handler with an active
editor): cancel any pending timeout, then
`inactivityTimeout = setTimeout(endSession-callback, 1800000)` — schedule a
fresh single-shot timer and remember its handle. -/
def onEdit (s : WatchState) : WatchState :=
  let s1 := cancelPending s
  { s1 with live := s1.live ++ [s1.nextId], handle := some s1.nextId, nextId := s1.nextId + 1 }

/-- A scheduled timeout `id` fires: only a live (uncancelled, unfired) timer
can fire; its callback invokes `endSession()`, whose trailing block
`if (inactivityTimeout) { clearTimeout(...); inactivityTimeout = undefined; }`
cancels the variable's timeout and clears the variable. -/
def onFire (id : Nat) (s : WatchState) : WatchState :=
  if id ∈ s.live then
    let s1 : WatchState := { s with live := s.live.erase id, autoCloses := s.autoCloses + 1 }
    match s1.handle with
    | some h => { s1 with live := s1.live.erase h, handle := none }
    | none => s1
  else s

/-- Events driving the watchdog. -/
inductive WatchEvent where
  | edit
  | fire (id : Nat)
deriving DecidableEq, Repr

/-- One watchdog step. -/
def watchStep (s : WatchState) (e : WatchEvent) : WatchState :=
  match e with
  | WatchEvent.edit => onEdit s
  | WatchEvent.fire id => onFire id s

/-- Run the watchdog from activation over a sequence of events. -/
def watchRun (es : List WatchEvent) : WatchState :=
  es.foldl watchStep WatchState.init

/-- Watchdog invariant: the live timer table holds at most the timeout the
`inactivityTimeout` variable references. -/
def WatchInv (s : WatchState) : Prop :=
  match s.handle with
  | none => s.live = []
  | some h => s.live = [] ∨ s.live = [h]

/-! ## Authentication flow (`processTokenFromWebView` and collaborators)

The vault (`context.secrets`) is an explicit pair of optional entries (the
profile under `RANKY_AUTH_KEY`, the raw token under `RANKY_TOKEN_KEY`).
Outcomes of the external collaborators — `parseJWT` (local signature
check), `verifyAuthWithBackend`, and the `success` of the account-creation
request inside `createUserAccountFromExtensionSide` — are passed as
parameters; `provisionCalls` counts how many times the account-creation
request was issued. -/

/-- The decoded token payload fields `processTokenFromWebView` reads. -/
structure TokenPayload where
  userId : String
  email : String
  userName : String
  fullName : String
deriving DecidableEq, Repr

/-- The in-memory `rankyUser` profile built from a verified payload. -/
structure RankyUser where
  userId : String
  email : String
  username : String
  name : String
deriving DecidableEq, Repr

/-- The profile object persisted under `RANKY_AUTH_KEY` (note the
`userCreated` boolean stored alongside the identity). -/
structure StoredUser where
  email : String
  username : String
  userId : String
  userCreated : Bool
deriving DecidableEq, Repr

/-- Authentication-relevant state: the two vault entries, the in-memory
`rankyUser`, and the count of issued account-creation requests. -/
structure AuthState where
  vaultAuth : Option StoredUser
  vaultToken : Option String
  rankyUser : Option RankyUser
  provisionCalls : Nat
deriving DecidableEq, Repr

/-- `clearAuthenticationData`: delete both vault entries and null the
in-memory `rankyUser`. -/
def clearAuthenticationData (s : AuthState) : AuthState :=
  { s with vaultAuth := none, vaultToken := none, rankyUser := none }

/-- `processTokenFromWebView(token)`: first `clearAuthenticationData`; then
`parseJWT` (outcome `parseResult`); on success, `verifyAuthWithBackend`
(outcome `verifyOk`); on success, `createUserAccountFromExtensionSide` is
invoked unconditionally — it always issues the account-creation request
(counted), and `createOk` is the `success` of the response; only when it
succeeds are the profile (with `userCreated: true`) and the raw token
stored in the vault and `rankyUser` set; every failure path returns
`success: false` without storing anything. -/
def processTokenFromWebView (token : String) (parseResult : Option TokenPayload)
    (verifyOk : Bool) (createOk : Bool) (s : AuthState) : AuthState × Bool :=
  let s0 := clearAuthenticationData s
  match parseResult with
  | none => (s0, false)
  | some payload =>
    if verifyOk = false then (s0, false)
    else
      let userData : RankyUser := ⟨payload.userId, payload.email, payload.userName, payload.fullName⟩
      let s1 : AuthState := { s0 with provisionCalls := s0.provisionCalls + 1 }
      if createOk then
        ({ s1 with
            vaultAuth := some ⟨userData.email, userData.username, userData.userId, true⟩,
            vaultToken := some token,
            rankyUser := some userData }, true)
      else (s1, false)

/-! ## Stats delivery (`sendCodingStatsToBackend`)

The function issues exactly one `fetch` of `POST /coding-stats` and maps the
response to a boolean: `true` on a 2xx (`response.ok`), `false` on any other
status or a network error.  Its body contains no call to any
authentication facility and no second `fetch`; the instrumented embedding
therefore records one issued request and zero re-authentication attempts on
every outcome. -/

/-- Outcome of the single `fetch` of `sendCodingStatsToBackend`. -/
inductive FetchOutcome where
  | ok
  | httpError (status : Nat)
  | networkError
deriving DecidableEq, Repr

/-- What one call of `sendCodingStatsToBackend` did: its returned boolean,
the number of `POST /coding-stats` requests it issued, and the number of
re-authentication attempts it made. -/
structure SendResult where
  success : Bool
  fetchCalls : Nat
  reauthCalls : Nat
deriving DecidableEq, Repr

/-- `sendCodingStatsToBackend(statsData)`: one request; `true` iff
`response.ok`; errors and non-2xx statuses are logged and yield `false`;
no retry, no re-authentication on any path. -/
def sendCodingStatsToBackend (outcome : FetchOutcome) : SendResult :=
  match outcome with
  | FetchOutcome.ok => ⟨true, 1, 0⟩
  | FetchOutcome.httpError _ => ⟨false, 1, 0⟩
  | FetchOutcome.networkError => ⟨false, 1, 0⟩

/-- A concrete decoded token payload, used by concrete instantiations. -/
def samplePayload : TokenPayload := ⟨"user-1", "a@b.c", "alice", "Alice A"⟩

/-- The authentication state before any run: empty vault, no user, no
provisioning request issued yet. -/
def authInit : AuthState := ⟨none, none, none, 0⟩

/-- A session state with an authenticated user, a timer started at `t = 0`,
an empty day total, the `statsAlreadySent` flag unset and nothing sent yet:
the state of one fresh process run at its first session close. -/
def sessionAtClose : SessionState :=
  ⟨Timer.start 0 Timer.init, 0, false, true, []⟩

/-! # Theorems -/

/-- C6: for every clock state, `getElapsedTime` returns `now - startTime`
while running; `endTime - startTime` if stopped with an end time;
`pausedTime` if paused without an end time; and `0` if never started.
(Every clock operation above is a total function `Timer → Timer`, so
totality and locality of mutation hold by construction of the embedding.) -/
theorem getElapsedTime_cases (now : ℤ) (t : Timer) :
    (t.startTime = none → t.getElapsedTime now = 0)
    ∧ (∀ st, t.startTime = some st → t.running = true →
        t.getElapsedTime now = now - st)
    ∧ (∀ st en, t.startTime = some st → t.running = false → t.endTime = some en →
        t.getElapsedTime now = en - st)
    ∧ (∀ st, t.startTime = some st → t.running = false → t.endTime = none →
        t.getElapsedTime now = t.pausedTime) := by
  refine ⟨?_, ?_, ?_, ?_⟩
  · intro h; simp [Timer.getElapsedTime, h]
  · intro st h hr; simp [Timer.getElapsedTime, h, hr]
  · intro st en h hr he; simp [Timer.getElapsedTime, h, hr, he]
  · intro st h hr he; simp [Timer.getElapsedTime, h, hr, he]

/-- Witness for C6: the four cases evaluated on concrete clock states. -/
theorem getElapsedTime_cases_witness :
    Timer.getElapsedTime 7 Timer.init = 0
    ∧ Timer.getElapsedTime 7 ⟨some 2, none, true, 0⟩ = 7 - 2
    ∧ Timer.getElapsedTime 7 ⟨some 2, some 5, false, 0⟩ = 5 - 2
    ∧ Timer.getElapsedTime 7 ⟨some 2, none, false, 3⟩ = 3 :=
  ⟨(getElapsedTime_cases 7 Timer.init).1 rfl,
   (getElapsedTime_cases 7 ⟨some 2, none, true, 0⟩).2.1 2 rfl rfl,
   (getElapsedTime_cases 7 ⟨some 2, some 5, false, 0⟩).2.2.1 2 5 rfl rfl rfl,
   (getElapsedTime_cases 7 ⟨some 2, none, false, 3⟩).2.2.2 2 rfl rfl rfl⟩

/-- C7: on a clock that is not running and carries no accumulated pause,
`start` at `t0`, `pause` at `t1`, `resume` at `t2`, then `getElapsedTime`
at `t2` yields exactly the pre-pause elapsed value `t1 - t0` (the value
`getElapsedTime` returned at `t1` just before the pause), never resetting
to zero: `resume` re-invokes `start`, which reconstitutes the start offset
as `now - pausedTime`. -/
theorem pause_resume_preserves_elapsed (t : Timer) (t0 t1 t2 : ℤ)
    (hrun : t.running = false) (hp : t.pausedTime = 0) :
    (((t.start t0).pause t1).resume t2).getElapsedTime t2
      = (t.start t0).getElapsedTime t1
    ∧ (((t.start t0).pause t1).resume t2).getElapsedTime t2 = t1 - t0 := by
  obtain ⟨st, en, run, pt⟩ := t
  simp only at hrun hp
  subst hrun hp
  have e1 : Timer.start t0 ⟨st, en, false, 0⟩ = ⟨some t0, none, true, 0⟩ := by
    simp [Timer.start]
  have e2 : Timer.pause t1 ⟨some t0, none, true, 0⟩
      = ⟨some t0, none, false, t1 - t0⟩ := rfl
  rw [e1, e2]
  by_cases h : t0 < t1
  · have e3 : Timer.resume t2 ⟨some t0, none, false, t1 - t0⟩
        = ⟨some (t2 - (t1 - t0)), none, true, t1 - t0⟩ := by
      simp [Timer.resume, Timer.start, h]
    rw [e3]
    refine ⟨?_, ?_⟩ <;> simp [Timer.getElapsedTime]
  · have e3 : Timer.resume t2 ⟨some t0, none, false, t1 - t0⟩
        = ⟨some t0, none, false, t1 - t0⟩ := by
      simp [Timer.resume, Timer.start, h]
    rw [e3]
    refine ⟨?_, ?_⟩ <;> simp [Timer.getElapsedTime]

/-- Witness for C7: start at 0, pause at 5, resume at 9 — elapsed is 5. -/
theorem pause_resume_preserves_elapsed_witness :
    (((Timer.init.start 0).pause 5).resume 9).getElapsedTime 9 = 5 - 0 :=
  (pause_resume_preserves_elapsed Timer.init 0 5 9 rfl rfl).2

/-- C2 counterexample: on a 401 response, `sendCodingStatsToBackend` makes
zero re-authentication attempts (not "exactly one"), issues no retried
call (its single request is the only one), and simply returns `false`. -/
theorem send401_noReauth_cex :
    (sendCodingStatsToBackend (FetchOutcome.httpError 401)).reauthCalls = 0
    ∧ (sendCodingStatsToBackend (FetchOutcome.httpError 401)).fetchCalls = 1
    ∧ (sendCodingStatsToBackend (FetchOutcome.httpError 401)).success = false := by
  decide

/-- C2 amended: a rejected (401 or any non-2xx) or failed delivery call
triggers no re-authentication and no retry — `sendCodingStatsToBackend`
issues exactly one request on every outcome, makes zero re-authentication
attempts, and returns `true` exactly on a 2xx response, `false` otherwise
to the caller (which does not loop). -/
theorem sendCodingStats_noRetry (o : FetchOutcome) :
    (sendCodingStatsToBackend o).fetchCalls = 1
    ∧ (sendCodingStatsToBackend o).reauthCalls = 0
    ∧ ((sendCodingStatsToBackend o).success = true ↔ o = FetchOutcome.ok) := by
  cases o <;> simp [sendCodingStatsToBackend]

/-- Witness for the amended C2: evaluated at a 2xx outcome. -/
theorem sendCodingStats_noRetry_witness :
    (sendCodingStatsToBackend FetchOutcome.ok).fetchCalls = 1
    ∧ (sendCodingStatsToBackend FetchOutcome.ok).success = true :=
  ⟨(sendCodingStats_noRetry FetchOutcome.ok).1,
   (sendCodingStats_noRetry FetchOutcome.ok).2.2.mpr rfl⟩

/-- C3 counterexample: running the full successful authentication flow twice
on the same installation issues the account-provisioning call twice — the
first run ends with one provisioning call, the repeat with two; no persisted
first-run flag prevents the second call (the stored `userCreated` boolean is
written but never consulted by `processTokenFromWebView`). -/
theorem provisionRepeated_cex :
    (processTokenFromWebView "tok" (some samplePayload) true true authInit).1.provisionCalls = 1
    ∧ (processTokenFromWebView "tok" (some samplePayload) true true
        (processTokenFromWebView "tok" (some samplePayload) true true authInit).1).1.provisionCalls
      = 2 := by
  decide

/-- C3 amended: for a valid, signed, verifiable token whose provisioning
call succeeds, `processTokenFromWebView` returns success, persists the
credential (profile with `userCreated: true`, plus the raw token) and sets
the in-memory user, and issues exactly one provisioning call in that run —
but it does so on every repeat of the flow as well (one more call per run),
since no persisted first-run flag guards the provisioning call. -/
theorem processToken_success_state (token : String) (payload : TokenPayload) (s : AuthState) :
    (processTokenFromWebView token (some payload) true true s).2 = true
    ∧ (processTokenFromWebView token (some payload) true true s).1.vaultAuth
        = some ⟨payload.email, payload.userName, payload.userId, true⟩
    ∧ (processTokenFromWebView token (some payload) true true s).1.vaultToken = some token
    ∧ (processTokenFromWebView token (some payload) true true s).1.rankyUser
        = some ⟨payload.userId, payload.email, payload.userName, payload.fullName⟩
    ∧ (processTokenFromWebView token (some payload) true true s).1.provisionCalls
        = s.provisionCalls + 1 := by
  simp [processTokenFromWebView, clearAuthenticationData]

/-- C10: `processTokenFromWebView` clears both vault entries and the
in-memory credential before the token is parsed or verified, so for every
submitted token that is malformed (`parseJWT` returns null) or rejected by
remote verification, the run ends with no persisted credential and no
in-memory user, whatever credential was cached beforehand. -/
theorem processToken_failure_clears (token : String) (pr : Option TokenPayload)
    (verifyOk createOk : Bool) (s : AuthState)
    (h : pr = none ∨ verifyOk = false) :
    (processTokenFromWebView token pr verifyOk createOk s).1.vaultAuth = none
    ∧ (processTokenFromWebView token pr verifyOk createOk s).1.vaultToken = none
    ∧ (processTokenFromWebView token pr verifyOk createOk s).1.rankyUser = none
    ∧ (processTokenFromWebView token pr verifyOk createOk s).2 = false := by
  rcases h with h | h
  · subst h
    simp [processTokenFromWebView, clearAuthenticationData]
  · subst h
    cases pr <;> simp [processTokenFromWebView, clearAuthenticationData]

/-- Witness for C10: a malformed token submitted while a valid credential
was cached leaves the vault and the in-memory user empty. -/
theorem processToken_failure_clears_witness :
    (processTokenFromWebView "bad" none true true
        ⟨some ⟨"a@b.c", "alice", "user-1", true⟩, some "old-token",
         some ⟨"user-1", "a@b.c", "alice", "Alice A"⟩, 1⟩).1.vaultAuth = none
    ∧ (processTokenFromWebView "bad" none true true
        ⟨some ⟨"a@b.c", "alice", "user-1", true⟩, some "old-token",
         some ⟨"user-1", "a@b.c", "alice", "Alice A"⟩, 1⟩).1.vaultToken = none
    ∧ (processTokenFromWebView "bad" none true true
        ⟨some ⟨"a@b.c", "alice", "user-1", true⟩, some "old-token",
         some ⟨"user-1", "a@b.c", "alice", "Alice A"⟩, 1⟩).1.rankyUser = none
    ∧ (processTokenFromWebView "bad" none true true
        ⟨some ⟨"a@b.c", "alice", "user-1", true⟩, some "old-token",
         some ⟨"user-1", "a@b.c", "alice", "Alice A"⟩, 1⟩).2 = false :=
  processToken_failure_clears "bad" none true true
    ⟨some ⟨"a@b.c", "alice", "user-1", true⟩, some "old-token",
     some ⟨"user-1", "a@b.c", "alice", "Alice A"⟩, 1⟩ (Or.inl rfl)

/-- One content change adds exactly its newline count to `totalLines`. -/
theorem applyChange_totalLines (s : AggStats) (c : ContentChange) :
    (applyChange s c).totalLines = s.totalLines + countNewlines c.text := by
  simp only [applyChange]
  by_cases h0 : 0 < countNewlines c.text
  · simp only [h0, if_true]
    split_ifs <;> simp
  · simp only [h0, if_false]
    split_ifs <;> simp <;> omega

/-- The content-change loop adds the sum of the newline counts to
`totalLines`. -/
theorem applyChanges_totalLines (s : AggStats) (cs : List ContentChange) :
    (applyChanges s cs).totalLines
      = s.totalLines + (cs.map (fun c => countNewlines c.text)).sum := by
  induction cs generalizing s with
  | nil => simp [applyChanges]
  | cons c rest ih =>
    simp only [applyChanges, List.foldl_cons, List.map_cons, List.sum_cons]
    rw [show rest.foldl applyChange (applyChange s c)
          = applyChanges (applyChange s c) rest from rfl, ih]
    rw [applyChange_totalLines]
    omega

/-- A pure-insertion change with non-blank, newline-free text adds its
whitespace-token count to `totalWords`. -/
theorem applyChange_totalWords_add (s : AggStats) (c : ContentChange)
    (hr : c.rangeLength = 0) (ht : 0 < (jsTrim c.text).length)
    (hn : '\n' ∉ c.text) :
    (applyChange s c).totalWords = s.totalWords + wordCount c.text := by
  have hlen : 0 < c.text.length := by
    rcases hc : c.text with _ | ⟨a, l⟩
    · rw [hc] at ht
      simp [jsTrim] at ht
    · simp
  simp only [applyChange]
  rw [if_pos ⟨hlen, hr⟩, if_pos ⟨ht, hn⟩]
  split_ifs <;> simp

/-- A change with a non-zero replaced range, or with a newline in its
inserted text, leaves `totalWords` unchanged. -/
theorem applyChange_totalWords_skip (s : AggStats) (c : ContentChange)
    (h : 0 < c.rangeLength ∨ '\n' ∈ c.text) :
    (applyChange s c).totalWords = s.totalWords := by
  simp only [applyChange]
  rcases h with h | h
  · have houter : ¬(0 < c.text.length ∧ c.rangeLength = 0) := by
      rintro ⟨-, h2⟩; omega
    rw [if_neg houter]
    split_ifs <;> simp
  · by_cases houter : 0 < c.text.length ∧ c.rangeLength = 0
    · have hinner : ¬(0 < (jsTrim c.text).length ∧ ¬('\n' ∈ c.text)) := by
        rintro ⟨-, hn⟩; exact hn h
      rw [if_pos houter, if_neg hinner]
      split_ifs <;> simp
    · rw [if_neg houter]
      split_ifs <;> simp

/-- C4: over any sequence of edit events, `totalLines` grows by exactly the
sum of newline counts of the inserted texts; and `totalWords` grows only on
pure-insertion edits (`rangeLength = 0`) whose inserted text is non-blank
and newline-free, by the whitespace-token count of the inserted text, while
any edit with a replaced range or a newline in its text leaves `totalWords`
unchanged. -/
theorem handleUserCoding_lines_words :
    (∀ (cs : List ContentChange) (s : AggStats),
        (applyChanges s cs).totalLines
          = s.totalLines + (cs.map (fun c => countNewlines c.text)).sum)
    ∧ (∀ (c : ContentChange) (s : AggStats),
        (c.rangeLength = 0 → 0 < (jsTrim c.text).length → '\n' ∉ c.text →
          (applyChange s c).totalWords = s.totalWords + wordCount c.text)
        ∧ (0 < c.rangeLength ∨ '\n' ∈ c.text →
          (applyChange s c).totalWords = s.totalWords)) :=
  ⟨fun cs s => applyChanges_totalLines s cs,
   fun c s =>
    ⟨fun hr ht hn => applyChange_totalWords_add s c hr ht hn,
     fun h => applyChange_totalWords_skip s c h⟩⟩

/-- Witness for C4: inserting `"hi yo"` (pure insertion) adds its two
whitespace-separated tokens; a replacement edit adds nothing. -/
theorem handleUserCoding_lines_words_witness :
    (applyChange ⟨0, 0⟩ ⟨['h', 'i', ' ', 'y', 'o'], 0⟩).totalWords
      = 0 + wordCount ['h', 'i', ' ', 'y', 'o']
    ∧ (applyChange ⟨3, 4⟩ ⟨['h', 'i'], 2⟩).totalWords = 3 :=
  ⟨(handleUserCoding_lines_words.2 ⟨['h', 'i', ' ', 'y', 'o'], 0⟩ ⟨0, 0⟩).1
      rfl (by decide) (by decide),
   (handleUserCoding_lines_words.2 ⟨['h', 'i'], 2⟩ ⟨3, 4⟩).2 (Or.inl (by decide))⟩

/-- C5, evaluated at the failing input (timer started at `t = 0` ms, session
closed at `t = 120000` ms, user present): `endSession` does add the Activity
Clock's elapsed seconds into the day record's accumulator and stops the
clock — but the `totalTimeMinutes` payload field then carries that very
seconds value (120.00 s, scaled: 12000), not the day's total time expressed
in minutes (2.00 min, scaled: 200), because `endSession` adds
`timer.getElapsedSeconds()` into `dailyStats.totalTimeMinutes` without any
division by 60. -/
theorem endSession_minutesField_carries_seconds :
    (endSession 120000 sessionAtClose).totalTimeMinutes
      = Timer.getElapsedSeconds 120000 sessionAtClose.timer
    ∧ (endSession 120000 sessionAtClose).timer.running = false
    ∧ (endSession 120000 sessionAtClose).sends
        = [⟨Timer.getElapsedSeconds 120000 sessionAtClose.timer, EndReason.inactivity⟩]
    ∧ Timer.getElapsedSeconds 120000 sessionAtClose.timer = 12000
    ∧ Timer.getElapsedMinutes 120000 sessionAtClose.timer = 200
    ∧ (12000 : ℤ) ≠ 200 := by
  decide

/-- `endSession` preserves the flag/trace invariant. -/
theorem sendInv_endSession (now : ℤ) (s : SessionState) (h : SendInv s) :
    SendInv (endSession now s) := by
  unfold SendInv at h ⊢
  simp only [endSession]
  split_ifs with h1 h2
  · refine ⟨fun hf => by simp at hf, ?_⟩
    have hempty : s.sends = [] := h.1 h2.2.2
    simp [hempty]
  · exact h
  · exact h

/-- `shutdownFlush` preserves the flag/trace invariant. -/
theorem sendInv_shutdownFlush (s : SessionState) (h : SendInv s) :
    SendInv (shutdownFlush s) := by
  unfold SendInv at h ⊢
  simp only [shutdownFlush]
  split_ifs with h1
  · refine ⟨fun hf => by simp at hf, ?_⟩
    have hempty : s.sends = [] := h.1 h1.2.2
    simp [hempty]
  · exact h

/-- `deactivate` preserves the flag/trace invariant. -/
theorem sendInv_deactivate (now : ℤ) (s : SessionState) (h : SendInv s) :
    SendInv (deactivate now s) := by
  have hs1 : SendInv (if s.timer.running then endSession now s else s) := by
    split_ifs with hr
    · exact sendInv_endSession now s h
    · exact h
  have hs2 := sendInv_shutdownFlush _ hs1
  exact hs2

/-- The invariant holds along every sequence of close events. -/
theorem sendInv_runClose (es : List CloseEvent) (s : SessionState) (h : SendInv s) :
    SendInv (runClose s es) := by
  induction es generalizing s with
  | nil => exact h
  | cons e rest ih =>
    simp only [runClose, List.foldl_cons]
    cases e with
    | inact now => exact ih (endSession now s) (sendInv_endSession now s h)
    | shutdown now => exact ih (deactivate now s) (sendInv_deactivate now s h)

/-- C1: within one process run (starting with `statsAlreadySent` unset and
nothing sent), any sequence of close events — inactivity closes via
`endSession`, shutdown closes via `deactivate`, in any order and number —
issues at most one call to the stats-delivery endpoint: both paths set
`statsAlreadySent` in the same synchronous block that starts the network
call and test it before sending. -/
theorem atMostOneSend_runClose (es : List CloseEvent) (s : SessionState)
    (_hflag : s.statsAlreadySent = false) (hsends : s.sends = []) :
    (runClose s es).sends.length ≤ 1 :=
  (sendInv_runClose es s ⟨fun _ => hsends, by simp [hsends]⟩).2

/-- Witness for C1: an inactivity close followed by a shutdown close from a
fresh run sends at most once. -/
theorem atMostOneSend_runClose_witness :
    (runClose sessionAtClose
        [CloseEvent.inact 60000, CloseEvent.shutdown 61000]).sends.length ≤ 1 :=
  atMostOneSend_runClose [CloseEvent.inact 60000, CloseEvent.shutdown 61000]
    sessionAtClose rfl rfl

/-- `endSession` never removes entries from the send trace. -/
theorem endSession_sends_mono (now : ℤ) (s : SessionState) :
    s.sends.length ≤ (endSession now s).sends.length := by
  simp only [endSession]
  split_ifs <;> simp

/-- `shutdownFlush` never removes entries from the send trace. -/
theorem shutdownFlush_sends_mono (s : SessionState) :
    s.sends.length ≤ (shutdownFlush s).sends.length := by
  simp only [shutdownFlush]
  split_ifs <;> simp

/-- `shutdownFlush` leaves the day total unchanged. -/
theorem shutdownFlush_total_eq (s : SessionState) :
    (shutdownFlush s).totalTimeMinutes = s.totalTimeMinutes := by
  simp only [shutdownFlush]
  split_ifs <;> rfl

/-- If `endSession` issued a send, the accumulated day total is positive. -/
theorem endSession_send_pos (now : ℤ) (s : SessionState)
    (h : s.sends.length < (endSession now s).sends.length) :
    0 < (endSession now s).totalTimeMinutes := by
  simp only [endSession] at h ⊢
  split_ifs at h ⊢ with h1 h2
  · exact h2.2.1
  · exact absurd h (lt_irrefl _)
  · exact absurd h (lt_irrefl _)

/-- If `shutdownFlush` issued a send, the accumulated day total is positive. -/
theorem shutdownFlush_send_pos (s : SessionState)
    (h : s.sends.length < (shutdownFlush s).sends.length) :
    0 < (shutdownFlush s).totalTimeMinutes := by
  simp only [shutdownFlush] at h ⊢
  split_ifs at h ⊢ with h1
  · exact h1.2.1
  · exact absurd h (lt_irrefl _)

/-- If the day total is zero at the end of `endSession` (a user being
present and nothing sent yet), `endSession` sent nothing. -/
theorem endSession_skip (now : ℤ) (s : SessionState)
    (_hu : s.hasUser = true) (_hf : s.statsAlreadySent = false)
    (h0 : (endSession now s).totalTimeMinutes = 0) :
    (endSession now s).sends = s.sends := by
  simp only [endSession] at h0 ⊢
  split_ifs at h0 ⊢ with h1 h2
  · exfalso
    obtain ⟨-, hpos, -⟩ := h2
    simp only at h0
    omega
  · rfl
  · rfl

/-- The send trace of `deactivate` is that of `shutdownFlush` applied after
the conditional `endSession`. -/
theorem deactivate_sends_eq (now : ℤ) (s : SessionState) :
    (deactivate now s).sends
      = (shutdownFlush (if s.timer.running then endSession now s else s)).sends := rfl

/-- The day total of `deactivate` is that of `shutdownFlush` applied after
the conditional `endSession`. -/
theorem deactivate_total_eq (now : ℤ) (s : SessionState) :
    (deactivate now s).totalTimeMinutes
      = (shutdownFlush (if s.timer.running then endSession now s else s)).totalTimeMinutes := rfl

/-- If a `deactivate` run issued a send, the day total it left behind is
positive. -/
theorem deactivate_send_pos (now : ℤ) (s : SessionState)
    (h : s.sends.length < (deactivate now s).sends.length) :
    0 < (deactivate now s).totalTimeMinutes := by
  rw [deactivate_sends_eq] at h
  rw [deactivate_total_eq]
  by_cases hr : s.timer.running = true
  · rw [if_pos hr] at h ⊢
    by_cases hg : (endSession now s).sends.length
        < (shutdownFlush (endSession now s)).sends.length
    · exact shutdownFlush_send_pos _ hg
    · have hm := shutdownFlush_sends_mono (endSession now s)
      have h1 : s.sends.length < (endSession now s).sends.length := by omega
      rw [shutdownFlush_total_eq]
      exact endSession_send_pos now s h1
  · rw [if_neg hr] at h ⊢
    exact shutdownFlush_send_pos s h

/-- If the day total is zero at the end of `deactivate` (a user being
present and nothing sent yet beforehand), `deactivate` sent nothing. -/
theorem deactivate_skip (now : ℤ) (s : SessionState)
    (hu : s.hasUser = true) (hf : s.statsAlreadySent = false)
    (h0 : (deactivate now s).totalTimeMinutes = 0) :
    (deactivate now s).sends = s.sends := by
  rw [deactivate_total_eq] at h0
  rw [deactivate_sends_eq]
  by_cases hr : s.timer.running = true
  · rw [if_pos hr] at h0 ⊢
    rw [shutdownFlush_total_eq] at h0
    have hes : (endSession now s).sends = s.sends := endSession_skip now s hu hf h0
    have hfl : shutdownFlush (endSession now s) = endSession now s := by
      simp only [shutdownFlush]
      rw [if_neg]
      rintro ⟨-, hpos, -⟩
      omega
    rw [hfl, hes]
  · rw [if_neg hr] at h0 ⊢
    rw [shutdownFlush_total_eq] at h0
    simp only [shutdownFlush]
    rw [if_neg]
    rintro ⟨-, hpos, -⟩
    omega

/-- C9: even with a verified credential present and the record unsent,
delivery is skipped whenever the day's accumulated total time is zero —
both close paths issue a send only when the accumulated
`dailyStats.totalTimeMinutes` is positive, and when it is zero neither
`endSession` nor `deactivate` adds anything to the send trace. -/
theorem send_only_when_positive_time (now : ℤ) (s : SessionState) :
    (s.sends.length < (endSession now s).sends.length →
        0 < (endSession now s).totalTimeMinutes)
    ∧ (s.sends.length < (deactivate now s).sends.length →
        0 < (deactivate now s).totalTimeMinutes)
    ∧ (s.hasUser = true → s.statsAlreadySent = false →
        (endSession now s).totalTimeMinutes = 0 →
        (endSession now s).sends = s.sends)
    ∧ (s.hasUser = true → s.statsAlreadySent = false →
        (deactivate now s).totalTimeMinutes = 0 →
        (deactivate now s).sends = s.sends) :=
  ⟨endSession_send_pos now s, deactivate_send_pos now s,
   endSession_skip now s, deactivate_skip now s⟩

/-- Witness for C9: a session closed immediately after its start (elapsed
0 ms, hence a zero day total) sends nothing, although a user is present and
nothing was sent before. -/
theorem send_only_when_positive_time_witness :
    (endSession 0 sessionAtClose).sends = sessionAtClose.sends :=
  (send_only_when_positive_time 0 sessionAtClose).2.2.1 rfl rfl (by decide)

/-- A qualifying edit leaves exactly one pending timer: the one it just
scheduled. -/
theorem watchInv_onEdit (s : WatchState) (h : WatchInv s) :
    WatchInv (onEdit s) := by
  unfold WatchInv at h ⊢
  unfold onEdit cancelPending
  cases hh : s.handle with
  | none =>
    rw [hh] at h
    simp [hh, h]
  | some hd =>
    rw [hh] at h
    rcases h with h | h <;> simp [hh, h]

/-- A timer firing leaves no pending timer. -/
theorem watchInv_onFire (id : Nat) (s : WatchState) (h : WatchInv s) :
    WatchInv (onFire id s) := by
  unfold WatchInv at h ⊢
  unfold onFire
  by_cases hm : id ∈ s.live
  · rw [if_pos hm]
    cases hh : s.handle with
    | none =>
      rw [hh] at h
      rw [h] at hm
      simp at hm
    | some hd =>
      rw [hh] at h
      rcases h with h | h
      · rw [h] at hm
        simp at hm
      · rw [h] at hm
        simp at hm
        subst hm
        simp [hh, h]
  · rw [if_neg hm]
    exact h

/-- Every watchdog step preserves the invariant. -/
theorem watchInv_step (s : WatchState) (e : WatchEvent) (h : WatchInv s) :
    WatchInv (watchStep s e) := by
  cases e with
  | edit => exact watchInv_onEdit s h
  | fire id => exact watchInv_onFire id s h

/-- The invariant holds along every event sequence from any invariant
state. -/
theorem watchInv_foldl (es : List WatchEvent) (s : WatchState) (h : WatchInv s) :
    WatchInv (es.foldl watchStep s) := by
  induction es generalizing s with
  | nil => exact h
  | cons e rest ih =>
    simp only [List.foldl_cons]
    exact ih (watchStep s e) (watchInv_step s e h)

/-- States satisfying the invariant have at most one pending timer. -/
theorem live_length_le_one (s : WatchState) (h : WatchInv s) :
    s.live.length ≤ 1 := by
  unfold WatchInv at h
  cases hh : s.handle with
  | none =>
    rw [hh] at h
    simp [h]
  | some hd =>
    rw [hh] at h
    rcases h with h | h <;> simp [h]

/-- A live timer that fires invokes the session close exactly once. -/
theorem onFire_autoCloses (id : Nat) (s : WatchState) (hm : id ∈ s.live) :
    (onFire id s).autoCloses = s.autoCloses + 1 := by
  unfold onFire
  rw [if_pos hm]
  cases hh : s.handle <;> simp [hh]

/-- Without any qualifying edit, the watchdog never leaves its initial
state. -/
theorem watchRun_no_edit (es : List WatchEvent) (h : WatchEvent.edit ∉ es) :
    watchRun es = WatchState.init := by
  unfold watchRun
  induction es with
  | nil => rfl
  | cons e rest ih =>
    simp only [List.mem_cons, not_or] at h
    obtain ⟨he, hrest⟩ := h
    cases e with
    | edit => exact absurd rfl he
    | fire id =>
      simp only [List.foldl_cons]
      have hstep : watchStep WatchState.init (WatchEvent.fire id) = WatchState.init := by
        show onFire id WatchState.init = WatchState.init
        unfold onFire
        rw [if_neg (by simp [WatchState.init])]
      rw [hstep]
      exact ih hrest

/-- C8: (a) along every event sequence from activation, at most one pending
inactivity timer exists, because every qualifying edit cancels the pending
timer before scheduling its fresh one; (b) a pending timer that fires
uncancelled invokes the session close; (c) if no qualifying edit ever
occurs, no timer is ever scheduled and no automatic session close happens. -/
theorem watchdog_invariants :
    (∀ es : List WatchEvent, (watchRun es).live.length ≤ 1)
    ∧ (∀ (s : WatchState) (id : Nat), id ∈ s.live →
        (onFire id s).autoCloses = s.autoCloses + 1)
    ∧ (∀ es : List WatchEvent, WatchEvent.edit ∉ es →
        watchRun es = WatchState.init) :=
  ⟨fun es => live_length_le_one _ (watchInv_foldl es WatchState.init (by simp [WatchInv, WatchState.init])),
   fun s id hm => onFire_autoCloses id s hm,
   fun es h => watchRun_no_edit es h⟩

/-- Witness for C8: two edits and a fire of the second timer keep at most
one pending timer; a live timer firing closes the session; a fire without
any prior edit leaves the initial state. -/
theorem watchdog_invariants_witness :
    (watchRun [WatchEvent.edit, WatchEvent.edit, WatchEvent.fire 1]).live.length ≤ 1
    ∧ (onFire 0 ⟨[0], some 0, 1, 0⟩).autoCloses = 0 + 1
    ∧ watchRun [WatchEvent.fire 5] = WatchState.init :=
  ⟨watchdog_invariants.1 [WatchEvent.edit, WatchEvent.edit, WatchEvent.fire 1],
   watchdog_invariants.2.1 ⟨[0], some 0, 1, 0⟩ 0 (by decide),
   watchdog_invariants.2.2 [WatchEvent.fire 5] (by decide)⟩
